import Mathlib

/-!
# GoToSocial: domain-block guard, Following collection, block removal, presigned URLs

A shallow embedding of

* `internal/db/bundb/domain.go` (the domain-block guard),
* `internal/federation/federatingdb/following.go` (the Following collection),
* `internal/processing/account/removeblock.go` (removal of a block), and
* `internal/storage/storage.go` (the storage driver and its presigned URLs),

as state-passing Lean functions.  Go functions returning `(value, error)` are
embedded as functions returning a pair whose second component is an
`Option Error` (`none` is Go's `nil` error).  Every interaction with a
collaborator (storage, cache) appends an event to an explicit trace, so that
"does not touch storage" is a statement about the trace.
-/

/-- Go `error` values, identified with their message. -/
abbrev Error := String

/-- A `*url.URL`, seen through the two methods the code calls on it. -/
structure URL where
  Hostname : String
  String : String
deriving DecidableEq, Repr

namespace bundb

/-! ## Data model -/

/-- The record `gtsmodel.DomainBlock`.  `domain.go` reads and writes only the
`Domain` column; the remaining columns of the row are carried along unchanged
as the uninterpreted payload `rest`. -/
structure DomainBlock (F : Type) where
  Domain : String
  rest : F
deriving DecidableEq, Repr

/-- The two configuration getters used by the guard: `config.GetHost()` and
`config.GetAccountDomain()`. -/
structure Config where
  Host : String
  AccountDomain : String
deriving DecidableEq, Repr

/-- Collaborators of `domainDB` whose code lives in other packages.
`Punify` is `util.Punify`, returning Go's `(string, error)` pair;
`ProcessError` is `DBConn.ProcessError`, applied to non-nil driver errors. -/
structure Deps where
  Punify : String → String × Option Error
  ProcessError : Error → Error
  config : Config

/-- Observable interactions with storage and with the domain-block cache. -/
inductive Event (F : Type) where
  /-- Row handed to `NewInsert().Model(block).Exec`. -/
  | dbInsert (row : DomainBlock F)
  /-- Domain handed to `NewDelete()...Where(domain = ?).Exec`. -/
  | dbDelete (domain : String)
  /-- Domain handed to `NewSelect().Model(&block).Where(domain = ?).Scan`. -/
  | dbSelectBlock (domain : String)
  /-- The loader callback ran its scan of all blocked domains. -/
  | dbScanDomains
  /-- The cache was asked `IsBlocked(domain, load)`. -/
  | cacheIsBlocked (domain : String)
  /-- The cache was asked to `Clear()`. -/
  | cacheClear
deriving DecidableEq, Repr

/-- Modelled from the spec: the domain-block cache type behind
`state.Caches.GTS.DomainBlock()` is not part of the sources.  The spec describes
it as a mapping of known-blocked domains that is hydrated lazily from storage by
a loader callback and cleared wholesale on invalidation: `none` is the
unhydrated cache, `some ds` the cache hydrated with the domains `ds`. -/
abbrev BlockCache := Option (List String)

/-- Explicit state: the rows of `domain_blocks`, the cache, and the trace of
collaborator interactions so far. -/
structure State (F : Type) where
  store : List (DomainBlock F)
  cache : BlockCache
  trace : List (Event F)
deriving DecidableEq, Repr

variable {F : Type}

/-- Append one event to the trace. -/
def State.log (s : State F) (e : Event F) : State F :=
  { s with trace := s.trace ++ [e] }

/-- The driver error a `Scan` into a single row reports when no row matches
(`sql.ErrNoRows`). -/
def sqlErrNoRows : Error := "sql: no rows in result set"

/-- The value `db.ErrNoEntries`. -/
def ErrNoEntries : Error := "no entries"

/-! ## Storage statements

Each statement takes `fault`, the driver error the execution reports, if any.
A failed statement leaves the table as it was. -/

/-- The statement `conn.NewInsert().Model(block).Exec(ctx)`. -/
def execInsert (fault : Option Error) (row : DomainBlock F) (s : State F) :
    Option Error × State F :=
  let s1 := s.log (.dbInsert row)
  match fault with
  | some e => (some e, s1)
  | none => (none, { s1 with store := s1.store ++ [row] })

/-- The statement `conn.NewDelete().Model(..).Where(domain = ?).Exec(ctx)`. -/
def execDelete (fault : Option Error) (domain : String) (s : State F) :
    Option Error × State F :=
  let s1 := s.log (.dbDelete domain)
  match fault with
  | some e => (some e, s1)
  | none => (none, { s1 with store := s1.store.filter (fun r => r.Domain ≠ domain) })

/-- The statement `conn.NewSelect().Model(&block).Where(domain = ?).Scan(ctx)`. -/
def scanBlock (fault : Option Error) (domain : String) (s : State F) :
    (Option (DomainBlock F) × Option Error) × State F :=
  let s1 := s.log (.dbSelectBlock domain)
  match fault with
  | some e => ((none, some e), s1)
  | none =>
    match s1.store.find? (fun r => r.Domain = domain) with
    | some row => ((some row, none), s1)
    | none => ((none, some sqlErrNoRows), s1)

/-- The statement `conn.NewSelect().Table("domain_blocks").Column("domain").Scan(ctx, &domains)`. -/
def scanDomains (fault : Option Error) (s : State F) :
    (List String × Option Error) × State F :=
  let s1 := s.log .dbScanDomains
  match fault with
  | some e => (([], some e), s1)
  | none => ((s1.store.map (fun r => r.Domain), none), s1)

/-! ## The cache -/

/-- Modelled from the spec: `BlockCache.Clear`, which is not part of the
sources.  The cache is "cleared, not incrementally patched", so that the next
query re-hydrates. -/
def cacheClear (s : State F) : State F :=
  { s.log .cacheClear with cache := none }

/-- Modelled from the spec: `BlockCache.IsBlocked(domain, load)`, which is not
part of the sources.  A hydrated cache answers by membership; an unhydrated one
first calls the loader, fails with the loader's error without hydrating, and
otherwise stores the loaded domains and answers by membership. -/
def cacheIsBlocked (domain : String)
    (load : State F → (List String × Option Error) × State F) (s : State F) :
    (Bool × Option Error) × State F :=
  let s1 := s.log (.cacheIsBlocked domain)
  match s1.cache with
  | some ds => ((decide (domain ∈ ds), none), s1)
  | none =>
    match load s1 with
    | ((_, some e), s2) => ((false, some e), s2)
    | ((ds, none), s2) => ((decide (domain ∈ ds), none), { s2 with cache := some ds })

/-! ## `domainDB` -/

/-- The check "domain referencing *us*" shared by `GetDomainBlock` and
`IsDomainBlocked`. -/
def isOwnDomain (d : Deps) (domain : String) : Bool :=
  decide (domain = "") || decide (domain = d.config.AccountDomain) ||
    decide (domain = d.config.Host)

/-- `domainDB.CreateDomainBlock`.  The block is passed by pointer, so the
caller's block after the call is returned alongside the error. -/
def CreateDomainBlock (d : Deps) (fault : Option Error) (block : DomainBlock F)
    (s : State F) : (Option Error × DomainBlock F) × State F :=
  match d.Punify block.Domain with
  | (dom, some err) => ((some err, { block with Domain := dom }), s)
  | (dom, none) =>
    let block1 : DomainBlock F := { block with Domain := dom }
    match execInsert fault block1 s with
    | (some err, s1) => ((some (d.ProcessError err), block1), s1)
    | (none, s1) => ((none, block1), cacheClear s1)

/-- `domainDB.GetDomainBlock`. -/
def GetDomainBlock (d : Deps) (fault : Option Error) (domain : String)
    (s : State F) : (Option (DomainBlock F) × Option Error) × State F :=
  match d.Punify domain with
  | (_, some err) => ((none, some err), s)
  | (dom, none) =>
    if isOwnDomain d dom then ((none, some ErrNoEntries), s)
    else
      match scanBlock fault dom s with
      | ((_, some err), s1) => ((none, some (d.ProcessError err)), s1)
      | ((row, none), s1) => ((row, none), s1)

/-- `domainDB.DeleteDomainBlock`. -/
def DeleteDomainBlock (d : Deps) (fault : Option Error) (domain : String)
    (s : State F) : Option Error × State F :=
  match d.Punify domain with
  | (_, some err) => (some err, s)
  | (dom, none) =>
    match execDelete fault dom s with
    | (some err, s1) => (some (d.ProcessError err), s1)
    | (none, s1) => (none, cacheClear s1)

/-- The loader callback that `IsDomainBlocked` hands to the cache. -/
def loadDomains (d : Deps) (fault : Option Error) (s : State F) :
    (List String × Option Error) × State F :=
  match scanDomains fault s with
  | ((_, some err), s1) => (([], some (d.ProcessError err)), s1)
  | ((domains, none), s1) => ((domains, none), s1)

/-- `domainDB.IsDomainBlocked`.  `fault` is the outcome of the loader's scan,
should the cache call the loader. -/
def IsDomainBlocked (d : Deps) (fault : Option Error) (domain : String)
    (s : State F) : (Bool × Option Error) × State F :=
  match d.Punify domain with
  | (_, some err) => ((false, some err), s)
  | (dom, none) =>
    if isOwnDomain d dom then ((false, none), s)
    else cacheIsBlocked dom (loadDomains d fault) s

/-- `domainDB.AreDomainsBlocked`: the `for ... range domains` loop.  At most one
lookup of a call reaches the loader (a failed load returns, a successful one
hydrates the cache), so one scan outcome `fault` serves the whole call. -/
def AreDomainsBlocked (d : Deps) (fault : Option Error) :
    List String → State F → (Bool × Option Error) × State F
  | [], s => ((false, none), s)
  | domain :: rest, s =>
    match IsDomainBlocked d fault domain s with
    | ((_, some err), s1) => ((false, some err), s1)
    | ((blocked, none), s1) =>
      if blocked then ((blocked, none), s1)
      else AreDomainsBlocked d fault rest s1

/-- `domainDB.IsURIBlocked`. -/
def IsURIBlocked (d : Deps) (fault : Option Error) (uri : URL) (s : State F) :
    (Bool × Option Error) × State F :=
  IsDomainBlocked d fault uri.Hostname s

/-- `domainDB.AreURIsBlocked`: the `for ... range uris` loop. -/
def AreURIsBlocked (d : Deps) (fault : Option Error) :
    List URL → State F → (Bool × Option Error) × State F
  | [], s => ((false, none), s)
  | uri :: rest, s =>
    match IsDomainBlocked d fault uri.Hostname s with
    | ((_, some err), s1) => ((false, some err), s1)
    | ((blocked, none), s1) =>
      if blocked then ((blocked, none), s1)
      else AreURIsBlocked d fault rest s1

/-! ## A concrete instance, used to evaluate the definitions -/

/-- A sample normalizer: rejects the one string `"bad domain"` and maps
`"EXAMPLE.ORG"` to its lower-case form; every other string is already
normal. -/
def samplePunify (domain : String) : String × Option Error :=
  if domain = "bad domain" then ("", some "idna: disallowed rune")
  else if domain = "EXAMPLE.ORG" then ("example.org", none)
  else (domain, none)

/-- A sample node `example.org` whose account-domain is `social.example.org`. -/
def sampleDeps : Deps where
  Punify := samplePunify
  ProcessError := fun e => e
  config := { Host := "example.org", AccountDomain := "social.example.org" }

/-- The empty store with an unhydrated cache. -/
def emptyState : State Nat := { store := [], cache := none, trace := [] }

/-- A store and a (hydrated) cache that both name the node's own host. -/
def ownBlockedState : State Nat :=
  { store := [{ Domain := "example.org", rest := 0 }],
    cache := some ["example.org"],
    trace := [] }

end bundb

namespace federatingdb

/-! ## Data model of the Following collection -/

/-- The record `gtsmodel.Account`, with the fields `Following` reads (`ID`,
`URI`) and the two by which a local account is looked up. -/
structure Account where
  ID : String
  Username : String
  Domain : String
  URI : String
deriving DecidableEq, Repr

/-- The record `gtsmodel.Follow`: the account `AccountID` follows the account
`TargetAccountID`. -/
structure Follow where
  ID : String
  AccountID : String
  TargetAccountID : String
deriving DecidableEq, Repr

/-- The storage interface `f.db`, restricted to the three methods `Following`
calls. -/
structure DB where
  GetLocalAccountByUsername : String → Except Error Account
  GetAccountFollows : String → Except Error (List Follow)
  GetByID : String → Except Error Account

/-- The queries `Following` can issue against `f.db`. -/
inductive Query where
  | GetLocalAccountByUsername (username : String)
  | GetAccountFollows (accountID : String)
  | GetByID (id : String)
deriving DecidableEq, Repr

/-- Path helpers of package `util` and `net/url.Parse`, whose code lives
elsewhere. -/
structure Util where
  IsUserPath : URL → Bool
  ParseUserPath : URL → Except Error String
  IsFollowingPath : URL → Bool
  ParseFollowingPath : URL → Except Error String
  Parse : String → Except Error URL

/-- The value `vocab.ActivityStreamsItemsProperty`: the IRIs appended so far. -/
structure ItemsProperty where
  iris : List URL
deriving DecidableEq, Repr

/-- The value `vocab.ActivityStreamsCollection`, seen through its `items`
property, which is unset until `SetActivityStreamsItems` is called. -/
structure Collection where
  items : Option ItemsProperty
deriving DecidableEq, Repr

/-- The constructor `streams.NewActivityStreamsCollection()`. -/
def NewActivityStreamsCollection : Collection := { items := none }

/-- The constructor `streams.NewActivityStreamsItemsProperty()`. -/
def NewActivityStreamsItemsProperty : ItemsProperty := { iris := [] }

/-- The method `items.AppendIRI(uri)`. -/
def ItemsProperty.AppendIRI (items : ItemsProperty) (uri : URL) : ItemsProperty :=
  { iris := items.iris ++ [uri] }

/-- The method `following.SetActivityStreamsItems(items)`. -/
def Collection.SetActivityStreamsItems (_ : Collection) (items : ItemsProperty) :
    Collection :=
  { items := some items }

/-! ## `federatingDB.Following` -/

/-- The `for _, follow := range acctFollowing` loop of `Following`: the items
property after the loop, or the error that made the loop return, together with
the log of queries. -/
def appendFollowing (u : Util) (db : DB) :
    List Follow → ItemsProperty → List Query → (ItemsProperty × Option Error) × List Query
  | [], items, log => ((items, none), log)
  | follow :: rest, items, log =>
    match db.GetByID follow.AccountID with
    | .error err =>
      ((items, some ("FOLLOWING: db error getting account id " ++ follow.AccountID ++ ": " ++ err)),
        log ++ [.GetByID follow.AccountID])
    | .ok gtsFollowing =>
      match u.Parse gtsFollowing.URI with
      | .error err =>
        ((items, some ("FOLLOWING: error parsing " ++ gtsFollowing.URI ++ " as url: " ++ err)),
          log ++ [.GetByID follow.AccountID])
      | .ok uri =>
        appendFollowing u db rest (items.AppendIRI uri) (log ++ [.GetByID follow.AccountID])

/-- The part of `Following` after the account has been found: fetch the
follows and assemble the collection. -/
def collectFollowing (u : Util) (db : DB) (acct : Account) (log : List Query) :
    (Option Collection × Option Error) × List Query :=
  match db.GetAccountFollows acct.ID with
  | .error err =>
    ((none, some ("FOLLOWING: db error getting following for account id " ++ acct.ID ++ ": " ++ err)),
      log ++ [.GetAccountFollows acct.ID])
  | .ok acctFollowing =>
    match appendFollowing u db acctFollowing NewActivityStreamsItemsProperty
        (log ++ [.GetAccountFollows acct.ID]) with
    | ((_, some err), log1) => ((none, some err), log1)
    | ((items, none), log1) =>
      ((some (NewActivityStreamsCollection.SetActivityStreamsItems items), none), log1)

/-- `federatingDB.Following`: the collection and error it returns, together
with the queries it issued against `f.db`, in order. -/
def Following (u : Util) (db : DB) (actorIRI : URL) :
    (Option Collection × Option Error) × List Query :=
  if u.IsUserPath actorIRI then
    match u.ParseUserPath actorIRI with
    | .error err => ((none, some ("FOLLOWING: error parsing user path: " ++ err)), [])
    | .ok username =>
      match db.GetLocalAccountByUsername username with
      | .error err =>
        ((none, some ("FOLLOWING: db error getting account with uri " ++ actorIRI.String ++ ": " ++ err)),
          [.GetLocalAccountByUsername username])
      | .ok a => collectFollowing u db a [.GetLocalAccountByUsername username]
  else if u.IsFollowingPath actorIRI then
    match u.ParseFollowingPath actorIRI with
    | .error err => ((none, some ("FOLLOWING: error parsing following path: " ++ err)), [])
    | .ok username =>
      match db.GetLocalAccountByUsername username with
      | .error err =>
        ((none, some ("FOLLOWING: db error getting account with following uri " ++ actorIRI.String ++ ": " ++ err)),
          [.GetLocalAccountByUsername username])
      | .ok a => collectFollowing u db a [.GetLocalAccountByUsername username]
  else
    ((none, some ("FOLLOWING: could not parse actor IRI " ++ actorIRI.String ++ " as users or following path")),
      [])

/-! ## A concrete instance, used to evaluate the definitions -/

/-- Modelled from the spec: a storage collaborator backed by two tables.  A
local account is one with empty `Domain`; `GetAccountFollows id` enumerates, in
table order, the stored Follow edges whose follower is `id`; a missing row is
reported as "no entries". -/
def tableDB (accounts : List Account) (follows : List Follow) : DB where
  GetLocalAccountByUsername := fun name =>
    match accounts.find? (fun a => decide (a.Username = name) && decide (a.Domain = "")) with
    | some a => .ok a
    | none => .error "no entries"
  GetAccountFollows := fun id => .ok (follows.filter (fun f => decide (f.AccountID = id)))
  GetByID := fun id =>
    match accounts.find? (fun a => decide (a.ID = id)) with
    | some a => .ok a
    | none => .error "no entries"

/-- The URL with the given rendered form on the sample host. -/
def sampleURL (raw : String) : URL := { Hostname := "example.org", String := raw }

/-- Sample path helpers for the node `example.org` with the single user
`alice`: her actor IRI is the users path, her following IRI the following
path. -/
def sampleUtil : Util where
  IsUserPath := fun u => decide (u.String = "https://example.org/users/alice")
  ParseUserPath := fun u =>
    if u.String = "https://example.org/users/alice" then .ok "alice"
    else .error "not a users path"
  IsFollowingPath := fun u => decide (u.String = "https://example.org/users/alice/following")
  ParseFollowingPath := fun u =>
    if u.String = "https://example.org/users/alice/following" then .ok "alice"
    else .error "not a following path"
  Parse := fun raw => if raw = "" then .error "empty url" else .ok (sampleURL raw)

/-- The local account `alice`. -/
def alice : Account :=
  { ID := "01ALICE", Username := "alice", Domain := "", URI := "https://example.org/users/alice" }

/-- The remote account `bob`. -/
def bob : Account :=
  { ID := "01BOB", Username := "bob", Domain := "remote.example",
    URI := "https://remote.example/users/bob" }

/-- The single stored Follow edge: `alice` follows `bob`. -/
def aliceFollowsBob : Follow :=
  { ID := "01FOLLOW", AccountID := "01ALICE", TargetAccountID := "01BOB" }

/-- A store where `alice` follows `bob`. -/
def sampleDB : DB := tableDB [alice, bob] [aliceFollowsBob]

/-- A store where `alice` follows nobody. -/
def lonelyDB : DB := tableDB [alice, bob] []

end federatingdb

namespace account

/-! ## Data model of `processor.BlockRemove` -/

open federatingdb (Account)

/-- One constraint `db.Where` of a predicate-based query: `Key = Value`. -/
structure Where where
  Key : String
  Value : String
deriving DecidableEq, Repr

/-- The record `gtsmodel.Block`: the account `AccountID` blocks the account
`TargetAccountID`; `Account` and `TargetAccount` are the optional pointers to
the two account records. -/
structure Block where
  ID : String
  URI : String
  AccountID : String
  Account : Option federatingdb.Account
  TargetAccountID : String
  TargetAccount : Option federatingdb.Account
deriving DecidableEq, Repr

/-- Modelled from the spec: the constant `gtsmodel.ActivityStreamsBlock`, whose
declaration is not part of the sources; the object type tag of a Block. -/
def ActivityStreamsBlock : String := "Block"

/-- Modelled from the spec: the constant `gtsmodel.ActivityStreamsUndo`, whose
declaration is not part of the sources; the activity type tag of an Undo. -/
def ActivityStreamsUndo : String := "Undo"

/-- The message `gtsmodel.FromClientAPI` handed over on the side-effect
channel. -/
structure FromClientAPI where
  APObjectType : String
  APActivityType : String
  GTSModel : Block
  OriginAccount : Account
  TargetAccount : Account
deriving DecidableEq, Repr

/-- Modelled from the spec: the error kinds of the taxonomy in the spec's error
handling design, which `gtserror.WithCode` values carry. -/
inductive ErrorKind where
  | NotFound
  | Blocked
  | Transient
  | InvalidInput
  | Conflict
  | Internal
deriving DecidableEq, Repr

/-- A `gtserror.WithCode`: an error together with its kind. -/
structure WithCode where
  kind : ErrorKind
  err : Error
deriving DecidableEq, Repr

/-- The constructor `gtserror.NewErrorNotFound`. -/
def NewErrorNotFound (err : Error) : WithCode := { kind := .NotFound, err := err }

/-- The constructor `gtserror.NewErrorInternalError`. -/
def NewErrorInternalError (err : Error) : WithCode := { kind := .Internal, err := err }

/-- The calls `BlockRemove` itself can issue against `p.db`. -/
inductive DBCall where
  | GetAccountByID (id : String)
  | GetWhere (constraints : List Where)
  | DeleteByID (id : String)
deriving DecidableEq, Repr

/-- The collaborators of `BlockRemove` over an abstract store `W`: the three
methods of `p.db` it calls (reads leave the store as it is, `DeleteByID`
returns the store after the call) and the sibling method `p.RelationshipGet`,
which answers with a relationship of type `R` from the store it is run on. -/
structure Processor (W R : Type) where
  GetAccountByID : W → String → Except Error Account
  GetWhere : W → List Where → Except Error Block
  DeleteByID : W → String → Option Error × W
  RelationshipGet : W → Account → String → Option R × Option WithCode

/-- Explicit state of the processor: the store, the calls `BlockRemove` has
issued against it, and the messages sent on `p.fromClientAPI`, oldest first. -/
structure PState (W : Type) where
  world : W
  calls : List DBCall
  fromClientAPI : List FromClientAPI

variable {W R : Type}

/-- Record one call against the store. -/
def PState.call (s : PState W) (c : DBCall) : PState W :=
  { s with calls := s.calls ++ [c] }

/-- The channel send `p.fromClientAPI <- msg`. -/
def PState.send (s : PState W) (msg : FromClientAPI) : PState W :=
  { s with fromClientAPI := s.fromClientAPI ++ [msg] }

/-- The two constraints `BlockRemove` passes to `GetWhere`. -/
def blockWhere (requestingAccount : Account) (targetAccountID : String) : List Where :=
  [{ Key := "account_id", Value := requestingAccount.ID },
   { Key := "target_account_id", Value := targetAccountID }]

/-- The message `BlockRemove` sends once the block has been deleted. -/
def undoBlockMessage (block : Block) (requestingAccount targetAccount : Account) :
    FromClientAPI :=
  { APObjectType := ActivityStreamsBlock,
    APActivityType := ActivityStreamsUndo,
    GTSModel := block,
    OriginAccount := requestingAccount,
    TargetAccount := targetAccount }

/-- `processor.BlockRemove`. -/
def BlockRemove (p : Processor W R) (requestingAccount : Account)
    (targetAccountID : String) (s : PState W) :
    (Option R × Option WithCode) × PState W :=
  let s1 := s.call (.GetAccountByID targetAccountID)
  match p.GetAccountByID s1.world targetAccountID with
  | .error err =>
    ((none, some (NewErrorNotFound
      ("BlockCreate: error getting account " ++ targetAccountID ++ " from the db: " ++ err))), s1)
  | .ok targetAccount =>
    let s2 := s1.call (.GetWhere (blockWhere requestingAccount targetAccountID))
    match p.GetWhere s2.world (blockWhere requestingAccount targetAccountID) with
    | .ok found =>
      let block : Block :=
        { found with Account := some requestingAccount, TargetAccount := some targetAccount }
      let s3 := s2.call (.DeleteByID block.ID)
      match p.DeleteByID s3.world block.ID with
      | (some err, w) =>
        ((none, some (NewErrorInternalError
          ("BlockRemove: error removing block from db: " ++ err))), { s3 with world := w })
      | (none, w) =>
        let s4 := ({ s3 with world := w } : PState W).send
          (undoBlockMessage block requestingAccount targetAccount)
        (p.RelationshipGet s4.world requestingAccount targetAccountID, s4)
    | .error _ => (p.RelationshipGet s2.world requestingAccount targetAccountID, s2)

/-! ## A concrete instance, used to evaluate the definitions -/

/-- The local account `alice` and the remote account `bob`. -/
def sampleAccounts : List Account := [federatingdb.alice, federatingdb.bob]

/-- The stored block "alice blocks bob". -/
def aliceBlocksBob : Block :=
  { ID := "01BLOCK", URI := "https://example.org/users/alice/blocks/01BLOCK",
    AccountID := "01ALICE", Account := none,
    TargetAccountID := "01BOB", TargetAccount := none }

/-- Whether a stored block satisfies every constraint of the list, for the two
columns `BlockRemove` constrains. -/
def Block.satisfies (b : Block) (constraints : List Where) : Bool :=
  constraints.all fun c =>
    if c.Key = "account_id" then decide (b.AccountID = c.Value)
    else if c.Key = "target_account_id" then decide (b.TargetAccountID = c.Value)
    else false

/-- Modelled from the spec: a storage collaborator whose store is the table of
blocks, next to a fixed table of accounts; a missing row is reported as "no
entries", `DeleteByID` reports the error `deleteFault` if given and removes the
row otherwise, and the relationship is whether the requester blocks the
target. -/
def tableProcessor (deleteFault : Option Error) : Processor (List Block) Bool where
  GetAccountByID := fun _ id =>
    match sampleAccounts.find? (fun a => decide (a.ID = id)) with
    | some a => .ok a
    | none => .error "no entries"
  GetWhere := fun blocks constraints =>
    match blocks.find? (fun b => b.satisfies constraints) with
    | some b => .ok b
    | none => .error "no entries"
  DeleteByID := fun blocks id =>
    match deleteFault with
    | some err => (some err, blocks)
    | none => (none, blocks.filter (fun b => decide (b.ID ≠ id)))
  RelationshipGet := fun blocks requester targetID =>
    (some (blocks.any (fun b =>
      decide (b.AccountID = requester.ID) && decide (b.TargetAccountID = targetID))), none)

/-- A processor state over the given table of blocks, before any call. -/
def freshState (blocks : List Block) : PState (List Block) :=
  { world := blocks, calls := [], fromClientAPI := [] }

end account

namespace storage

/-! ## `storage.Driver` -/

/-- The duration `time.Second`, in nanoseconds. -/
def Second : Int := 1000000000

/-- The duration `time.Minute`. -/
def Minute : Int := 60 * Second

/-- The duration `time.Hour`. -/
def Hour : Int := 60 * Minute

/-- The constant `urlCacheTTL`. -/
def urlCacheTTL : Int := Hour * 24

/-- The constant `urlCacheExpiryFrequency`. -/
def urlCacheExpiryFrequency : Int := Minute * 5

/-- The record `PresignedURL`; `Expiry` is a point in time, in nanoseconds. -/
structure PresignedURL where
  URL : URL
  Expiry : Int
deriving DecidableEq, Repr

/-- The dynamic type behind the interface value `Driver.Storage`. -/
inductive Storage where
  | S3Storage (endpoint bucket : String)
  | DiskStorage (basePath : String)
  | OtherStorage (name : String)
deriving DecidableEq, Repr

/-- The outcome of the type assertion `d.Storage.(*storage.S3Storage)`. -/
def Storage.isS3 : Storage → Bool
  | .S3Storage _ _ => true
  | _ => false

/-- The parameters a `ttl.Cache` is created and started with: the lifetime of
an entry and the period of the sweep that evicts expired entries. -/
structure TTLCache where
  TTL : Int
  Sweep : Int
deriving DecidableEq, Repr

/-- The record `Driver`; `PresignedCache` is a pointer and may be nil. -/
structure Driver where
  Storage : Storage
  Proxy : Bool
  Bucket : String
  PresignedCache : Option TTLCache
deriving DecidableEq, Repr

/-- An entry of the presigned-URL cache with the time it expires at. -/
structure Entry where
  Key : String
  Value : PresignedURL
  Expiry : Int
deriving DecidableEq, Repr

/-- Observable interactions of `Driver.URL` with the cache and with S3. -/
inductive Event where
  | cacheLock
  | cacheGet (key : String)
  | cacheUnlock
  /-- The request `PresignedGetObject(ctx, bucket, key, expires, params)`. -/
  | presign (bucket key : String) (expires : Int) (contentType : String)
  | cacheSet (entry : Entry)
deriving DecidableEq, Repr

/-- Explicit state: the entries of the presigned-URL cache and the trace of
interactions so far. -/
structure State where
  cache : List Entry
  trace : List Event
deriving DecidableEq, Repr

/-- Append events to the trace. -/
def State.log (s : State) (es : List Event) : State :=
  { s with trace := s.trace ++ es }

/-- Collaborators of `Driver.URL` outside the repository: the S3 client's
`PresignedGetObject` (by bucket, key, expiry and response content type),
`mime.TypeByExtension`, `path.Ext` and the clock `time.Now()`. -/
structure Env where
  PresignedGetObject : String → String → Int → String → Except Error URL
  TypeByExtension : String → String
  Ext : String → String
  Now : Int

/-- What a call of `Driver.URL` comes to: the pointer it returns (possibly
nil), or a nil-pointer dereference of `d.PresignedCache`. -/
inductive Outcome where
  | returned (url : Option PresignedURL)
  | nilDereference
deriving DecidableEq, Repr

/-- The method `PresignedCache.Set(key, psu)` of the cache library: the entry
for `key` is replaced by one that expires a lifetime from now. -/
def cacheSet (c : TTLCache) (now : Int) (key : String) (psu : PresignedURL)
    (s : State) : State :=
  let entry : Entry := { Key := key, Value := psu, Expiry := now + c.TTL }
  { cache := entry :: s.cache.filter (fun e => decide (e.Key ≠ key)),
    trace := s.trace ++ [.cacheSet entry] }

/-- `Driver.URL`. -/
def Driver.URL (env : Env) (d : Driver) (key : String) (s : State) : Outcome × State :=
  if !d.Storage.isS3 || d.Proxy then (.returned none, s)
  else
    match d.PresignedCache with
    | none => (.nilDereference, s)
    | some c =>
      let s1 := s.log [.cacheLock, .cacheGet key, .cacheUnlock]
      match s1.cache.find? (fun e => decide (e.Key = key)) with
      | some e => (.returned (some e.Value), s1)
      | none =>
        let contentType := env.TypeByExtension (env.Ext key)
        let s2 := s1.log [.presign d.Bucket key urlCacheTTL contentType]
        match env.PresignedGetObject d.Bucket key urlCacheTTL contentType with
        | .error _ => (.returned none, s2)
        | .ok u =>
          let psu : PresignedURL := { URL := u, Expiry := env.Now + urlCacheTTL }
          (.returned (some psu), cacheSet c env.Now key psu s2)

/-- The runtime configuration read by `NewS3Storage` and `NewFileStorage`. -/
structure Config where
  StorageS3Endpoint : String
  StorageS3BucketName : String
  StorageS3Proxy : Bool
  StorageLocalBasePath : String
deriving DecidableEq, Repr

/-- `NewFileStorage`; `openErr` is the error `storage.OpenDisk` reports, if
any. -/
def NewFileStorage (cfg : Config) (openErr : Option Error) : Option Driver × Option Error :=
  match openErr with
  | some err => (none, some ("error opening disk storage: " ++ err))
  | none =>
    (some { Storage := .DiskStorage cfg.StorageLocalBasePath, Proxy := false, Bucket := "",
            PresignedCache := none }, none)

/-- `NewS3Storage`; `openErr` is the error `storage.OpenS3` reports, if any. -/
def NewS3Storage (cfg : Config) (openErr : Option Error) : Option Driver × Option Error :=
  match openErr with
  | some err => (none, some ("error opening s3 storage: " ++ err))
  | none =>
    let presignedCache : TTLCache :=
      { TTL := urlCacheTTL - urlCacheExpiryFrequency, Sweep := urlCacheExpiryFrequency }
    (some { Proxy := cfg.StorageS3Proxy, Bucket := cfg.StorageS3BucketName,
            Storage := .S3Storage cfg.StorageS3Endpoint cfg.StorageS3BucketName,
            PresignedCache := some presignedCache }, none)

/-! ## A concrete instance, used to evaluate the definitions -/

/-- A sample environment: presigning always succeeds with a URL on the bucket's
host, every key is served as `image/png`, and the clock reads `1000`. -/
def sampleEnv : Env where
  PresignedGetObject := fun bucket key _ _ =>
    .ok { Hostname := bucket ++ ".s3.example", String := "https://" ++ bucket ++ ".s3.example/" ++ key }
  TypeByExtension := fun _ => "image/png"
  Ext := fun _ => ".png"
  Now := 1000

/-- A sample configuration with proxying disabled. -/
def sampleConfig : Config :=
  { StorageS3Endpoint := "s3.example", StorageS3BucketName := "media",
    StorageS3Proxy := false, StorageLocalBasePath := "/gotosocial/storage" }

/-- A sample configuration with proxying enabled. -/
def proxyConfig : Config := { sampleConfig with StorageS3Proxy := true }

/-- A cached presigned URL for the key `avatar.png`. -/
def cachedEntry : Entry :=
  { Key := "avatar.png",
    Value := { URL := { Hostname := "media.s3.example",
                        String := "https://media.s3.example/avatar.png" },
               Expiry := 500 + urlCacheTTL },
    Expiry := 500 + (urlCacheTTL - urlCacheExpiryFrequency) }

/-- A state whose cache already holds `cachedEntry`. -/
def warmState : State := { cache := [cachedEntry], trace := [] }

/-- A state with an empty cache. -/
def coldState : State := { cache := [], trace := [] }

end storage

namespace bundb

variable {F : Type}

/-! ## Basic facts about the embedding -/

theorem isOwnDomain_eq_true_iff (d : Deps) (dom : String) :
    isOwnDomain d dom = true ↔
      (dom = "" ∨ dom = d.config.Host ∨ dom = d.config.AccountDomain) := by
  unfold isOwnDomain
  simp only [Bool.or_eq_true, decide_eq_true_eq]
  tauto

theorem IsDomainBlocked_of_punify_error (d : Deps) (fault : Option Error)
    (domain x : String) (err : Error) (s : State F)
    (h : d.Punify domain = (x, some err)) :
    IsDomainBlocked d fault domain s = ((false, some err), s) := by
  unfold IsDomainBlocked
  rw [h]

theorem IsDomainBlocked_of_own (d : Deps) (fault : Option Error)
    (domain nd : String) (s : State F)
    (h : d.Punify domain = (nd, none)) (hown : isOwnDomain d nd = true) :
    IsDomainBlocked d fault domain s = ((false, none), s) := by
  unfold IsDomainBlocked
  rw [h]
  simp [hown]

theorem IsDomainBlocked_of_foreign (d : Deps) (fault : Option Error)
    (domain nd : String) (s : State F)
    (h : d.Punify domain = (nd, none)) (hown : isOwnDomain d nd = false) :
    IsDomainBlocked d fault domain s = cacheIsBlocked nd (loadDomains d fault) s := by
  unfold IsDomainBlocked
  rw [h]
  simp [hown]

/-- A lookup of a foreign domain against a hydrated cache is answered from the
cache alone. -/
theorem cacheIsBlocked_hydrated (nd : String)
    (load : State F → (List String × Option Error) × State F)
    (s : State F) (ds : List String) (hc : s.cache = some ds) :
    cacheIsBlocked nd load s = ((decide (nd ∈ ds), none), s.log (.cacheIsBlocked nd)) := by
  unfold cacheIsBlocked
  simp [State.log, hc]

/-- A lookup of a foreign domain against an unhydrated cache, when the scan
succeeds, hydrates the cache from the store and answers by membership. -/
theorem cacheIsBlocked_unhydrated_ok (d : Deps) (nd : String)
    (s : State F) (hc : s.cache = none) :
    cacheIsBlocked nd (loadDomains d none) s =
      ((decide (nd ∈ s.store.map (fun r => r.Domain)), none),
        { store := s.store,
          cache := some (s.store.map (fun r => r.Domain)),
          trace := s.trace ++ [.cacheIsBlocked nd, .dbScanDomains] }) := by
  unfold cacheIsBlocked loadDomains scanDomains
  simp [State.log, hc]

/-- A lookup of a foreign domain against an unhydrated cache, when the scan
fails, reports the processed error and leaves the cache unhydrated. -/
theorem cacheIsBlocked_unhydrated_error (d : Deps) (nd : String) (e : Error)
    (s : State F) (hc : s.cache = none) :
    cacheIsBlocked nd (loadDomains d (some e)) s =
      ((false, some (d.ProcessError e)),
        { store := s.store,
          cache := none,
          trace := s.trace ++ [.cacheIsBlocked nd, .dbScanDomains] }) := by
  unfold cacheIsBlocked loadDomains scanDomains
  simp [State.log, hc]

theorem CreateDomainBlock_ok (d : Deps) (block : DomainBlock F) (nd : String)
    (s : State F) (h : d.Punify block.Domain = (nd, none)) :
    CreateDomainBlock d none block s =
      ((none, { Domain := nd, rest := block.rest }),
        { store := s.store ++ [{ Domain := nd, rest := block.rest }],
          cache := none,
          trace := s.trace ++ [.dbInsert { Domain := nd, rest := block.rest }, .cacheClear] }) := by
  unfold CreateDomainBlock
  rw [h]
  simp [execInsert, cacheClear, State.log]

theorem CreateDomainBlock_insert_error (d : Deps) (block : DomainBlock F)
    (nd : String) (e : Error) (s : State F)
    (h : d.Punify block.Domain = (nd, none)) :
    CreateDomainBlock d (some e) block s =
      ((some (d.ProcessError e), { Domain := nd, rest := block.rest }),
        { store := s.store,
          cache := s.cache,
          trace := s.trace ++ [.dbInsert { Domain := nd, rest := block.rest }] }) := by
  unfold CreateDomainBlock
  rw [h]
  simp [execInsert, State.log]

theorem DeleteDomainBlock_ok (d : Deps) (domain nd : String)
    (s : State F) (h : d.Punify domain = (nd, none)) :
    DeleteDomainBlock d none domain s =
      (none,
        ({ store := s.store.filter (fun r => r.Domain ≠ nd),
           cache := none,
           trace := s.trace ++ [.dbDelete nd, .cacheClear] } : State F)) := by
  unfold DeleteDomainBlock
  rw [h]
  simp [execDelete, cacheClear, State.log]

theorem DeleteDomainBlock_delete_error (d : Deps) (domain nd : String)
    (e : Error) (s : State F) (h : d.Punify domain = (nd, none)) :
    DeleteDomainBlock d (some e) domain s =
      (some (d.ProcessError e),
        ({ store := s.store,
           cache := s.cache,
           trace := s.trace ++ [.dbDelete nd] } : State F)) := by
  unfold DeleteDomainBlock
  rw [h]
  simp [execDelete, State.log]

/-! ## The domain-block guard: policy for the node's own domains -/

/-- C1: whenever the normalized form of the queried domain is the empty string,
the configured host or the configured account-domain, `IsDomainBlocked` returns
`(false, nil)` from every state (whatever the store and the cache contain) and
leaves the state, trace included, exactly as it was: the cache is not consulted
and the loader is not called. -/
theorem IsDomainBlocked_own_domain_never_blocked (d : Deps) (fault : Option Error)
    (domain nd : String) (s : State F)
    (hnorm : d.Punify domain = (nd, none))
    (hown : nd = "" ∨ nd = d.config.Host ∨ nd = d.config.AccountDomain) :
    IsDomainBlocked d fault domain s = ((false, none), s) :=
  IsDomainBlocked_of_own d fault domain nd s hnorm
    ((isOwnDomain_eq_true_iff d nd).mpr hown)

theorem IsDomainBlocked_own_domain_never_blocked_witness :
    sampleDeps.Punify "EXAMPLE.ORG" = ("example.org", none) ∧
      ownBlockedState.store = [{ Domain := "example.org", rest := 0 }] ∧
      ownBlockedState.cache = some ["example.org"] ∧
      IsDomainBlocked sampleDeps (some "connection refused") "EXAMPLE.ORG" ownBlockedState
        = ((false, none), ownBlockedState) :=
  ⟨by decide, rfl, rfl,
    IsDomainBlocked_own_domain_never_blocked sampleDeps (some "connection refused")
      "EXAMPLE.ORG" "example.org" ownBlockedState (by decide) (Or.inr (Or.inl rfl))⟩

/-! ## Create, delete, query -/

/-- C2, as stated, fails twice over.  On the sample node `example.org`, blocking
the node's own host succeeds and the following query still answers
`(false, nil)`; and blocking a foreign domain succeeds while the following
query, whose scan of the store fails, answers `(false, err)`. -/
theorem create_then_query_not_always_true :
    (CreateDomainBlock sampleDeps none
        ({ Domain := "example.org", rest := 0 } : DomainBlock Nat) emptyState).1.1 = none ∧
      (IsDomainBlocked sampleDeps none "example.org"
        (CreateDomainBlock sampleDeps none
          ({ Domain := "example.org", rest := 0 } : DomainBlock Nat) emptyState).2).1
        = (false, none) ∧
      (CreateDomainBlock sampleDeps none
        ({ Domain := "spam.example", rest := 0 } : DomainBlock Nat) emptyState).1.1 = none ∧
      (IsDomainBlocked sampleDeps (some "connection refused") "spam.example"
        (CreateDomainBlock sampleDeps none
          ({ Domain := "spam.example", rest := 0 } : DomainBlock Nat) emptyState).2).1
        = (false, some "connection refused") := by
  decide

/-- C2, amended: from any store and any cache state, if `CreateDomainBlock` of a
block with domain `D` returns without error and the normalized form of `D` is
not one of the node's own domains, the next `IsDomainBlocked(D)` whose scan of
the store succeeds returns `(true, nil)`; and from any state, if
`DeleteDomainBlock(D)` returns without error, the next `IsDomainBlocked(D)`
whose scan of the store succeeds returns `(false, nil)`. -/
theorem create_delete_visible_to_next_query (d : Deps) (fc fd : Option Error)
    (block : DomainBlock F) (s s2 : State F) :
    ((CreateDomainBlock d fc block s).1.1 = none →
        isOwnDomain d (d.Punify block.Domain).1 = false →
        (IsDomainBlocked d none block.Domain (CreateDomainBlock d fc block s).2).1
          = (true, none)) ∧
      ((DeleteDomainBlock d fd block.Domain s2).1 = none →
        (IsDomainBlocked d none block.Domain (DeleteDomainBlock d fd block.Domain s2).2).1
          = (false, none)) := by
  rcases hp : d.Punify block.Domain with ⟨nd, _ | err⟩
  · constructor
    · intro hc hown
      have hown : isOwnDomain d nd = false := hown
      cases fc with
      | some e => rw [CreateDomainBlock_insert_error d block nd e s hp] at hc; cases hc
      | none =>
        rw [CreateDomainBlock_ok d block nd s hp,
          IsDomainBlocked_of_foreign d none block.Domain nd _ hp hown,
          cacheIsBlocked_unhydrated_ok d nd _ rfl]
        simp
    · intro hd
      cases fd with
      | some e => rw [DeleteDomainBlock_delete_error d block.Domain nd e s2 hp] at hd; cases hd
      | none =>
        rw [DeleteDomainBlock_ok d block.Domain nd s2 hp]
        cases hown : isOwnDomain d nd with
        | true => rw [IsDomainBlocked_of_own d none block.Domain nd _ hp hown]
        | false =>
          rw [IsDomainBlocked_of_foreign d none block.Domain nd _ hp hown,
            cacheIsBlocked_unhydrated_ok d nd _ rfl]
          simp
  · constructor
    · intro hc
      unfold CreateDomainBlock at hc
      rw [hp] at hc
      cases hc
    · intro hd
      unfold DeleteDomainBlock at hd
      rw [hp] at hd
      cases hd

theorem create_delete_visible_to_next_query_witness :
    (IsDomainBlocked sampleDeps none "spam.example"
        (CreateDomainBlock sampleDeps none
          ({ Domain := "spam.example", rest := 0 } : DomainBlock Nat) ownBlockedState).2).1
        = (true, none) ∧
      (IsDomainBlocked sampleDeps none "spam.example"
        (DeleteDomainBlock sampleDeps none "spam.example"
          (CreateDomainBlock sampleDeps none
            ({ Domain := "spam.example", rest := 0 } : DomainBlock Nat) ownBlockedState).2).2).1
        = (false, none) :=
  ⟨(create_delete_visible_to_next_query sampleDeps none none
      ({ Domain := "spam.example", rest := 0 } : DomainBlock Nat) ownBlockedState
      (CreateDomainBlock sampleDeps none
        ({ Domain := "spam.example", rest := 0 } : DomainBlock Nat) ownBlockedState).2).1
      (by decide) (by decide),
    (create_delete_visible_to_next_query sampleDeps none none
      ({ Domain := "spam.example", rest := 0 } : DomainBlock Nat) ownBlockedState
      (CreateDomainBlock sampleDeps none
        ({ Domain := "spam.example", rest := 0 } : DomainBlock Nat) ownBlockedState).2).2
      (by decide)⟩

/-! ## Write-through, then invalidate -/

/-- C3: `CreateDomainBlock` and `DeleteDomainBlock` issue the storage write
first and clear the cache exactly when the write succeeded.  If the insert
(delete) reports an error `e`, the call returns the processed error, the trace
gains the write and no `Clear`, and store and cache are as before.  If the write
succeeds, the call returns `nil`, the trace gains the write followed by `Clear`,
and the cache is unhydrated, so that the next query for a foreign domain scans
the store, hydrates the cache from it and answers by membership. -/
theorem write_first_then_clear_on_success (d : Deps) (block : DomainBlock F)
    (domain nb nd q nq : String) (e : Error) (s : State F)
    (hb : d.Punify block.Domain = (nb, none))
    (hd : d.Punify domain = (nd, none))
    (hq : d.Punify q = (nq, none)) (hforeign : isOwnDomain d nq = false) :
    CreateDomainBlock d (some e) block s =
        ((some (d.ProcessError e), { Domain := nb, rest := block.rest }),
          { store := s.store, cache := s.cache,
            trace := s.trace ++ [.dbInsert { Domain := nb, rest := block.rest }] }) ∧
      CreateDomainBlock d none block s =
        ((none, { Domain := nb, rest := block.rest }),
          { store := s.store ++ [{ Domain := nb, rest := block.rest }], cache := none,
            trace := s.trace ++ [.dbInsert { Domain := nb, rest := block.rest }, .cacheClear] }) ∧
      DeleteDomainBlock d (some e) domain s =
        (some (d.ProcessError e),
          ({ store := s.store, cache := s.cache,
             trace := s.trace ++ [.dbDelete nd] } : State F)) ∧
      DeleteDomainBlock d none domain s =
        (none,
          ({ store := s.store.filter (fun r => r.Domain ≠ nd), cache := none,
             trace := s.trace ++ [.dbDelete nd, .cacheClear] } : State F)) ∧
      IsDomainBlocked d none q (CreateDomainBlock d none block s).2 =
        ((decide (nq ∈ (CreateDomainBlock d none block s).2.store.map (fun r => r.Domain)), none),
          { store := (CreateDomainBlock d none block s).2.store,
            cache := some ((CreateDomainBlock d none block s).2.store.map (fun r => r.Domain)),
            trace := (CreateDomainBlock d none block s).2.trace ++
              [.cacheIsBlocked nq, .dbScanDomains] }) ∧
      IsDomainBlocked d none q (DeleteDomainBlock d none domain s).2 =
        ((decide (nq ∈ (DeleteDomainBlock d none domain s).2.store.map (fun r => r.Domain)), none),
          { store := (DeleteDomainBlock d none domain s).2.store,
            cache := some ((DeleteDomainBlock d none domain s).2.store.map (fun r => r.Domain)),
            trace := (DeleteDomainBlock d none domain s).2.trace ++
              [.cacheIsBlocked nq, .dbScanDomains] }) := by
  refine ⟨CreateDomainBlock_insert_error d block nb e s hb, CreateDomainBlock_ok d block nb s hb,
    DeleteDomainBlock_delete_error d domain nd e s hd, DeleteDomainBlock_ok d domain nd s hd,
    ?_, ?_⟩
  · rw [IsDomainBlocked_of_foreign d none q nq _ hq hforeign]
    exact cacheIsBlocked_unhydrated_ok d nq _ (by rw [CreateDomainBlock_ok d block nb s hb])
  · rw [IsDomainBlocked_of_foreign d none q nq _ hq hforeign]
    exact cacheIsBlocked_unhydrated_ok d nq _ (by rw [DeleteDomainBlock_ok d domain nd s hd])

theorem write_first_then_clear_on_success_witness :
    (CreateDomainBlock sampleDeps (some "unique violation")
        ({ Domain := "EXAMPLE.ORG", rest := 7 } : DomainBlock Nat) ownBlockedState).2.cache
        = some ["example.org"] ∧
      (CreateDomainBlock sampleDeps none
        ({ Domain := "EXAMPLE.ORG", rest := 7 } : DomainBlock Nat) ownBlockedState).2.cache
        = none :=
  have h := write_first_then_clear_on_success sampleDeps
    ({ Domain := "EXAMPLE.ORG", rest := 7 } : DomainBlock Nat)
    "spam.example" "example.org" "spam.example" "spam.example" "spam.example"
    "unique violation" ownBlockedState (by decide) (by decide) (by decide) (by decide)
  ⟨by rw [h.1]; rfl, by rw [h.2.1]⟩

/-! ## Malformed domains -/

/-- C4: when `Punify` fails on the domain, each of `IsDomainBlocked`,
`GetDomainBlock`, `CreateDomainBlock` and `DeleteDomainBlock` returns that very
error (with `false`, respectively no block) and the state is exactly as before:
store and cache untouched, no event added to the trace. -/
theorem punify_error_returned_without_effects (d : Deps) (fault : Option Error)
    (domain x : String) (err : Error) (rest : F) (s : State F)
    (h : d.Punify domain = (x, some err)) :
    IsDomainBlocked d fault domain s = ((false, some err), s) ∧
      GetDomainBlock d fault domain s = ((none, some err), s) ∧
      (CreateDomainBlock d fault { Domain := domain, rest := rest } s).1.1 = some err ∧
      (CreateDomainBlock d fault { Domain := domain, rest := rest } s).2 = s ∧
      DeleteDomainBlock d fault domain s = (some err, s) := by
  refine ⟨IsDomainBlocked_of_punify_error d fault domain x err s h, ?_, ?_, ?_, ?_⟩
  · unfold GetDomainBlock
    rw [h]
  · unfold CreateDomainBlock
    simp only [h]
  · unfold CreateDomainBlock
    simp only [h]
  · unfold DeleteDomainBlock
    rw [h]

theorem punify_error_returned_without_effects_witness :
    sampleDeps.Punify "bad domain" = ("", some "idna: disallowed rune") ∧
      IsDomainBlocked sampleDeps none "bad domain" ownBlockedState
        = ((false, some "idna: disallowed rune"), ownBlockedState) ∧
      DeleteDomainBlock sampleDeps none "bad domain" ownBlockedState
        = (some "idna: disallowed rune", ownBlockedState) :=
  have h := punify_error_returned_without_effects sampleDeps none "bad domain" ""
    "idna: disallowed rune" (0 : Nat) ownBlockedState (by decide)
  ⟨by decide, h.1, h.2.2.2.2⟩

/-! ## Stored form of a block -/

/-- C7: when the block's domain normalizes to `nd`, `CreateDomainBlock` hands
storage the block with `Domain` replaced by `nd` and every other field
untouched; the caller's block afterwards is that same value; and when the
insert succeeds the table is the old table followed by that row. -/
theorem CreateDomainBlock_stores_normalized (d : Deps) (fault : Option Error)
    (block : DomainBlock F) (nd : String) (s : State F)
    (h : d.Punify block.Domain = (nd, none)) :
    (CreateDomainBlock d fault block s).1.2 = { Domain := nd, rest := block.rest } ∧
      (CreateDomainBlock d fault block s).1.2.rest = block.rest ∧
      ((CreateDomainBlock d fault block s).2.trace.drop s.trace.length).head?
        = some (.dbInsert { Domain := nd, rest := block.rest }) ∧
      (fault = none →
        (CreateDomainBlock d fault block s).2.store
          = s.store ++ [{ Domain := nd, rest := block.rest }]) := by
  cases fault with
  | none =>
    rw [CreateDomainBlock_ok d block nd s h]
    simp
  | some e =>
    rw [CreateDomainBlock_insert_error d block nd e s h]
    simp

theorem CreateDomainBlock_stores_normalized_witness :
    (CreateDomainBlock sampleDeps none
        ({ Domain := "EXAMPLE.ORG", rest := 7 } : DomainBlock Nat) emptyState).1.2
        = { Domain := "example.org", rest := 7 } ∧
      (CreateDomainBlock sampleDeps none
        ({ Domain := "EXAMPLE.ORG", rest := 7 } : DomainBlock Nat) emptyState).2.store
        = [{ Domain := "example.org", rest := 7 }] :=
  have h := CreateDomainBlock_stores_normalized sampleDeps none
    ({ Domain := "EXAMPLE.ORG", rest := 7 } : DomainBlock Nat) "example.org" emptyState
    (by decide)
  ⟨h.1, h.2.2.2 rfl⟩

/-! ## Lookups over lists -/

/-- A lookup that succeeds may hydrate the cache, but it does not change the
answer of any later lookup. -/
theorem IsDomainBlocked_answers_stable (d : Deps) (fault : Option Error)
    (x : String) (s s1 : State F) (b : Bool)
    (h : IsDomainBlocked d fault x s = ((b, none), s1)) (y : String) :
    (IsDomainBlocked d fault y s1).1 = (IsDomainBlocked d fault y s).1 := by
  rcases hx : d.Punify x with ⟨nx, _ | err⟩
  · cases hox : isOwnDomain d nx with
    | true =>
      rw [IsDomainBlocked_of_own d fault x nx s hx hox] at h
      cases h
      rfl
    | false =>
      rw [IsDomainBlocked_of_foreign d fault x nx s hx hox] at h
      rcases hy : d.Punify y with ⟨ny, _ | erry⟩
      · cases hoy : isOwnDomain d ny with
        | true =>
          rw [IsDomainBlocked_of_own d fault y ny s hy hoy,
            IsDomainBlocked_of_own d fault y ny s1 hy hoy]
        | false =>
          rw [IsDomainBlocked_of_foreign d fault y ny s hy hoy,
            IsDomainBlocked_of_foreign d fault y ny s1 hy hoy]
          cases hc : s.cache with
          | some ds =>
            rw [cacheIsBlocked_hydrated nx _ s ds hc] at h
            cases h
            rw [cacheIsBlocked_hydrated ny _ s ds hc,
              cacheIsBlocked_hydrated ny _ (s.log (.cacheIsBlocked nx)) ds hc]
          | none =>
            cases fault with
            | some e =>
              rw [cacheIsBlocked_unhydrated_error d nx e s hc] at h
              cases h
            | none =>
              rw [cacheIsBlocked_unhydrated_ok d nx s hc] at h
              cases h
              rw [cacheIsBlocked_unhydrated_ok d ny s hc,
                cacheIsBlocked_hydrated ny _ _ _ rfl]
      · rw [IsDomainBlocked_of_punify_error d fault y ny erry s hy,
          IsDomainBlocked_of_punify_error d fault y ny erry s1 hy]
  · rw [IsDomainBlocked_of_punify_error d fault x nx err s hx] at h
    cases h

/-- When every lookup of the list succeeds, the loop answers with the
disjunction of the individual answers and no error. -/
theorem AreDomainsBlocked_eq_any (d : Deps) (fault : Option Error) :
    ∀ (domains : List String) (s : State F),
      (∀ x ∈ domains, (IsDomainBlocked d fault x s).1.2 = none) →
      (AreDomainsBlocked d fault domains s).1 =
        (domains.any (fun x => (IsDomainBlocked d fault x s).1.1), none)
  | [], _, _ => rfl
  | x :: rest, s, hok => by
    have hx := hok x (List.mem_cons_self x rest)
    rcases h : IsDomainBlocked d fault x s with ⟨⟨b, err⟩, s1⟩
    rw [h] at hx
    have herr : err = none := hx
    subst herr
    unfold AreDomainsBlocked
    rw [h]
    cases b with
    | true => simp [h]
    | false =>
      have hstable := IsDomainBlocked_answers_stable d fault x s s1 false h
      have hrest : ∀ y ∈ rest, (IsDomainBlocked d fault y s1).1.2 = none := by
        intro y hy
        rw [hstable y]
        exact hok y (List.mem_cons_of_mem x hy)
      have ih := AreDomainsBlocked_eq_any d fault rest s1 hrest
      simp only [Bool.false_eq_true, if_false]
      rw [ih]
      simp [h, hstable]

/-- C5: for every list of domains on which each individual `IsDomainBlocked`
lookup succeeds, `AreDomainsBlocked` returns no error, and returns `true`
exactly when `IsDomainBlocked` is `true` for at least one entry of the list; for
the empty list it returns `(false, nil)` without any effect. -/
theorem AreDomainsBlocked_true_iff_some_entry_blocked (d : Deps)
    (fault : Option Error) (domains : List String) (s : State F)
    (hok : ∀ x ∈ domains, (IsDomainBlocked d fault x s).1.2 = none) :
    (AreDomainsBlocked d fault domains s).1.2 = none ∧
      ((AreDomainsBlocked d fault domains s).1.1 = true ↔
        ∃ x ∈ domains, (IsDomainBlocked d fault x s).1.1 = true) ∧
      AreDomainsBlocked d fault [] s = ((false, none), s) := by
  have h := AreDomainsBlocked_eq_any d fault domains s hok
  refine ⟨by rw [h], ?_, rfl⟩
  rw [h]
  simp [List.any_eq_true]

theorem AreDomainsBlocked_true_iff_some_entry_blocked_witness :
    (AreDomainsBlocked sampleDeps none ["example.org", "ok.example", "spam.example"]
        ({ store := [{ Domain := "spam.example", rest := 0 }], cache := none, trace := [] }
          : State Nat)).1 = (true, none) :=
  have h := AreDomainsBlocked_true_iff_some_entry_blocked sampleDeps none
    ["example.org", "ok.example", "spam.example"]
    ({ store := [{ Domain := "spam.example", rest := 0 }], cache := none, trace := [] }
      : State Nat) (by decide)
  Prod.ext (h.2.1.mpr ⟨"spam.example", by decide, by decide⟩) h.1

/-! ## URI variants -/

theorem AreURIsBlocked_eq_map (d : Deps) (fault : Option Error) :
    ∀ (uris : List URL) (s : State F),
      AreURIsBlocked d fault uris s =
        AreDomainsBlocked d fault (uris.map (fun u => u.Hostname)) s
  | [], _ => rfl
  | u :: rest, s => by
    unfold AreURIsBlocked
    rw [List.map_cons]
    conv_rhs => unfold AreDomainsBlocked
    rcases IsDomainBlocked d fault u.Hostname s with ⟨⟨b, _ | err⟩, s1⟩
    · cases b with
      | true => rfl
      | false =>
        simp only [Bool.false_eq_true, if_false]
        exact AreURIsBlocked_eq_map d fault rest s1
    · rfl

/-- C6: the URI variants are the domain variants applied to the extracted
hostnames.  `IsURIBlocked(u)` is `IsDomainBlocked(u.Hostname())` and
`AreURIsBlocked(us)` is `AreDomainsBlocked` of the hostnames of `us`, with the
same boolean, the same error and the same effect on the state. -/
theorem URI_variants_are_hostname_variants (d : Deps) (fault : Option Error)
    (u : URL) (uris : List URL) (s : State F) :
    IsURIBlocked d fault u s = IsDomainBlocked d fault u.Hostname s ∧
      AreURIsBlocked d fault uris s =
        AreDomainsBlocked d fault (uris.map (fun x => x.Hostname)) s :=
  ⟨rfl, AreURIsBlocked_eq_map d fault uris s⟩

end bundb

namespace federatingdb

/-! ## The Following collection -/

/-- When every edge of the list has the same follower `a`, the loop fetches
`a` once per edge and appends the URI of `a` once per edge. -/
theorem appendFollowing_of_same_follower (u : Util) (db : DB) (a : Account) (ua : URL)
    (hget : db.GetByID a.ID = .ok a) (hparse : u.Parse a.URI = .ok ua) :
    ∀ (follows : List Follow) (items : ItemsProperty) (log : List Query),
      (∀ f ∈ follows, f.AccountID = a.ID) →
      appendFollowing u db follows items log =
        (({ iris := items.iris ++ List.replicate follows.length ua }, none),
          log ++ List.replicate follows.length (.GetByID a.ID))
  | [], items, log, _ => by simp [appendFollowing]
  | f :: rest, items, log, h => by
    have hf : f.AccountID = a.ID := h f (List.mem_cons_self f rest)
    have hrest : ∀ g ∈ rest, g.AccountID = a.ID :=
      fun g hg => h g (List.mem_cons_of_mem f hg)
    unfold appendFollowing
    rw [hf, hget]
    simp only [hparse]
    rw [appendFollowing_of_same_follower u db a ua hget hparse rest _ _ hrest]
    simp [ItemsProperty.AppendIRI, List.replicate_succ]

/-- For a local account `a` reached through its users path, whose stored edges
all have `a` as follower, the collection lists the URI of `a` itself once per
edge, whoever the followed accounts are. -/
theorem Following_lists_follower_per_edge (u : Util) (db : DB) (actorIRI : URL)
    (username : String) (a : Account) (ua : URL) (follows : List Follow)
    (hpath : u.IsUserPath actorIRI = true) (hname : u.ParseUserPath actorIRI = .ok username)
    (hacct : db.GetLocalAccountByUsername username = .ok a)
    (hfollows : db.GetAccountFollows a.ID = .ok follows)
    (hedges : ∀ f ∈ follows, f.AccountID = a.ID)
    (hget : db.GetByID a.ID = .ok a) (hparse : u.Parse a.URI = .ok ua) :
    (Following u db actorIRI).1 =
      (some { items := some { iris := List.replicate follows.length ua } }, none) := by
  unfold Following
  rw [if_pos hpath]
  simp only [hname, hacct]
  unfold collectFollowing
  simp only [hfollows]
  rw [appendFollowing_of_same_follower u db a ua hget hparse follows _ _ hedges]
  simp [NewActivityStreamsItemsProperty, Collection.SetActivityStreamsItems]

/-- C8 fails on the code: in the sample store `alice` follows `bob` and nobody
else, and `Following` on the actor IRI of `alice` returns a collection whose
single item is the URI of `alice`, after fetching the account `01ALICE` again,
where the claim requires the URI of `bob`. -/
theorem Following_returns_follower_not_followed :
    sampleDB.GetAccountFollows alice.ID = .ok [aliceFollowsBob] ∧
      aliceFollowsBob.TargetAccountID = bob.ID ∧
      Following sampleUtil sampleDB (sampleURL "https://example.org/users/alice") =
        ((some { items := some { iris := [sampleURL "https://example.org/users/alice"] } }, none),
          [.GetLocalAccountByUsername "alice", .GetAccountFollows "01ALICE", .GetByID "01ALICE"]) ∧
      sampleURL "https://example.org/users/alice" ≠ sampleURL bob.URI := by
  refine ⟨rfl, rfl, by decide, by decide⟩

/-- C9: for every actor IRI that is neither a users path nor a following path,
`Following` returns a nil collection and the error "could not parse actor IRI",
and issues no query against the store, whatever the store is. -/
theorem Following_unrecognized_path_fails_without_query (u : Util) (db : DB)
    (actorIRI : URL)
    (huser : u.IsUserPath actorIRI = false)
    (hfollowing : u.IsFollowingPath actorIRI = false) :
    Following u db actorIRI =
      ((none, some ("FOLLOWING: could not parse actor IRI " ++ actorIRI.String ++
          " as users or following path")), []) := by
  unfold Following
  simp [huser, hfollowing]

theorem Following_unrecognized_path_fails_without_query_witness :
    Following sampleUtil sampleDB (sampleURL "https://example.org/users/alice/outbox") =
      ((none, some ("FOLLOWING: could not parse actor IRI " ++
          "https://example.org/users/alice/outbox" ++ " as users or following path")), []) :=
  Following_unrecognized_path_fails_without_query sampleUtil sampleDB
    (sampleURL "https://example.org/users/alice/outbox") (by decide) (by decide)

/-- C10: for an actor IRI that is a users path or a following path of an
existing local account for which the store returns an empty list of follows,
`Following` returns no error and a non-nil collection whose items property is
set and holds zero items. -/
theorem Following_zero_edges_gives_empty_collection (u : Util) (db : DB)
    (actorIRI : URL) (username : String) (acct : Account)
    (hpath : (u.IsUserPath actorIRI = true ∧ u.ParseUserPath actorIRI = .ok username) ∨
      (u.IsUserPath actorIRI = false ∧ u.IsFollowingPath actorIRI = true ∧
        u.ParseFollowingPath actorIRI = .ok username))
    (hacct : db.GetLocalAccountByUsername username = .ok acct)
    (hnone : db.GetAccountFollows acct.ID = .ok []) :
    (Following u db actorIRI).1 = (some { items := some { iris := [] } }, none) := by
  have hcollect : ∀ log, (collectFollowing u db acct log).1 =
      (some { items := some { iris := [] } }, none) := by
    intro log
    unfold collectFollowing
    simp [hnone, appendFollowing, NewActivityStreamsItemsProperty,
      Collection.SetActivityStreamsItems]
  unfold Following
  rcases hpath with ⟨hu, hn⟩ | ⟨hu, hf, hn⟩
  · rw [if_pos hu]
    simp only [hn, hacct]
    exact hcollect _
  · simp only [hu, hf, hn, hacct, Bool.false_eq_true, if_false, if_true]
    exact hcollect _

theorem Following_zero_edges_gives_empty_collection_witness :
    (Following sampleUtil lonelyDB (sampleURL "https://example.org/users/alice/following")).1 =
      (some { items := some { iris := [] } }, none) :=
  Following_zero_edges_gives_empty_collection sampleUtil lonelyDB
    (sampleURL "https://example.org/users/alice/following") "alice" alice
    (Or.inr ⟨by decide, by decide, rfl⟩) rfl rfl

end federatingdb

namespace account

open federatingdb (Account)

variable {W R : Type}

/-! ## `BlockRemove`, case by case -/

theorem BlockRemove_target_missing (p : Processor W R) (req : Account) (tid : String)
    (s : PState W) (e : Error) (hacct : p.GetAccountByID s.world tid = .error e) :
    BlockRemove p req tid s =
      ((none, some (NewErrorNotFound
        ("BlockCreate: error getting account " ++ tid ++ " from the db: " ++ e))),
        { world := s.world, calls := s.calls ++ [.GetAccountByID tid],
          fromClientAPI := s.fromClientAPI }) := by
  unfold BlockRemove
  simp [PState.call, hacct]

theorem BlockRemove_block_missing (p : Processor W R) (req : Account) (tid : String)
    (s : PState W) (tgt : Account) (e : Error)
    (hacct : p.GetAccountByID s.world tid = .ok tgt)
    (hblock : p.GetWhere s.world (blockWhere req tid) = .error e) :
    BlockRemove p req tid s =
      (p.RelationshipGet s.world req tid,
        { world := s.world,
          calls := s.calls ++ [.GetAccountByID tid, .GetWhere (blockWhere req tid)],
          fromClientAPI := s.fromClientAPI }) := by
  unfold BlockRemove
  simp [PState.call, hacct, hblock]

theorem BlockRemove_delete_failed (p : Processor W R) (req : Account) (tid : String)
    (s : PState W) (tgt : Account) (found : Block) (e : Error) (w : W)
    (hacct : p.GetAccountByID s.world tid = .ok tgt)
    (hblock : p.GetWhere s.world (blockWhere req tid) = .ok found)
    (hdel : p.DeleteByID s.world found.ID = (some e, w)) :
    BlockRemove p req tid s =
      ((none, some (NewErrorInternalError
        ("BlockRemove: error removing block from db: " ++ e))),
        { world := w,
          calls := s.calls ++
            [.GetAccountByID tid, .GetWhere (blockWhere req tid), .DeleteByID found.ID],
          fromClientAPI := s.fromClientAPI }) := by
  unfold BlockRemove
  simp [PState.call, hacct, hblock, hdel]

theorem BlockRemove_deleted (p : Processor W R) (req : Account) (tid : String)
    (s : PState W) (tgt : Account) (found : Block) (w : W)
    (hacct : p.GetAccountByID s.world tid = .ok tgt)
    (hblock : p.GetWhere s.world (blockWhere req tid) = .ok found)
    (hdel : p.DeleteByID s.world found.ID = (none, w)) :
    BlockRemove p req tid s =
      (p.RelationshipGet w req tid,
        { world := w,
          calls := s.calls ++
            [.GetAccountByID tid, .GetWhere (blockWhere req tid), .DeleteByID found.ID],
          fromClientAPI := s.fromClientAPI ++
            [undoBlockMessage { found with Account := some req, TargetAccount := some tgt }
              req tgt] }) := by
  unfold BlockRemove
  simp [PState.call, PState.send, hacct, hblock, hdel]

/-- The messages a call of `BlockRemove` adds to the channel: none, unless the
target account and the block were found and the deletion succeeded, in which
case it is the one Undo-Block message. -/
theorem BlockRemove_channel (p : Processor W R) (req : Account) (tid : String)
    (s : PState W) :
    (BlockRemove p req tid s).2.fromClientAPI = s.fromClientAPI ∨
      ∃ tgt found, p.GetAccountByID s.world tid = .ok tgt ∧
        p.GetWhere s.world (blockWhere req tid) = .ok found ∧
        (p.DeleteByID s.world found.ID).1 = none ∧
        (BlockRemove p req tid s).2.fromClientAPI = s.fromClientAPI ++
          [undoBlockMessage { found with Account := some req, TargetAccount := some tgt }
            req tgt] := by
  cases hacct : p.GetAccountByID s.world tid with
  | error e => left; rw [BlockRemove_target_missing p req tid s e hacct]
  | ok tgt =>
    cases hblock : p.GetWhere s.world (blockWhere req tid) with
    | error e => left; rw [BlockRemove_block_missing p req tid s tgt e hacct hblock]
    | ok found =>
      rcases hdel : p.DeleteByID s.world found.ID with ⟨_ | e, w⟩
      · right
        refine ⟨tgt, found, rfl, rfl, ?_, ?_⟩
        · rw [hdel]
        · rw [BlockRemove_deleted p req tid s tgt found w hacct hblock hdel]
      · left
        rw [BlockRemove_delete_failed p req tid s tgt found e w hacct hblock hdel]

/-! ## Publication follows mutation -/

/-- C11: a call of `BlockRemove` adds at most one message to the side-effect
channel, and adds one only if the block from the requesting account to the
target was found and its `DeleteByID` succeeded; when `DeleteByID` fails,
`BlockRemove` returns an internal error and the channel is as before. -/
theorem BlockRemove_publishes_only_after_delete (p : Processor W R) (req : Account)
    (tid : String) (s : PState W) :
    (∃ evs, (BlockRemove p req tid s).2.fromClientAPI = s.fromClientAPI ++ evs ∧
        evs.length ≤ 1 ∧
        (evs ≠ [] → ∃ found, p.GetWhere s.world (blockWhere req tid) = .ok found ∧
          (p.DeleteByID s.world found.ID).1 = none)) ∧
      (∀ tgt found err, p.GetAccountByID s.world tid = .ok tgt →
        p.GetWhere s.world (blockWhere req tid) = .ok found →
        (p.DeleteByID s.world found.ID).1 = some err →
        (BlockRemove p req tid s).1 =
            (none, some (NewErrorInternalError
              ("BlockRemove: error removing block from db: " ++ err))) ∧
          (BlockRemove p req tid s).2.fromClientAPI = s.fromClientAPI) := by
  constructor
  · rcases BlockRemove_channel p req tid s with h | ⟨tgt, found, _, hblock, hdel, h⟩
    · exact ⟨[], by rw [h, List.append_nil], by simp, fun hne => absurd rfl hne⟩
    · exact ⟨_, h, by simp, fun _ => ⟨found, hblock, hdel⟩⟩
  · intro tgt found err hacct hblock hdel
    rcases hd : p.DeleteByID s.world found.ID with ⟨r, w⟩
    rw [hd] at hdel
    have hr : r = some err := hdel
    subst hr
    rw [BlockRemove_delete_failed p req tid s tgt found err w hacct hblock hd]
    exact ⟨rfl, rfl⟩

theorem BlockRemove_publishes_only_after_delete_witness :
    (BlockRemove (tableProcessor (some "connection refused")) federatingdb.alice "01BOB"
        (freshState [aliceBlocksBob])).1 =
        (none, some (NewErrorInternalError
          ("BlockRemove: error removing block from db: " ++ "connection refused"))) ∧
      (BlockRemove (tableProcessor (some "connection refused")) federatingdb.alice "01BOB"
        (freshState [aliceBlocksBob])).2.fromClientAPI = [] :=
  (BlockRemove_publishes_only_after_delete (tableProcessor (some "connection refused"))
    federatingdb.alice "01BOB" (freshState [aliceBlocksBob])).2
    federatingdb.bob aliceBlocksBob "connection refused" rfl rfl rfl

/-- C12: every message a call of `BlockRemove` adds to the channel has object
type Block and activity type Undo, carries as model the block that was fetched
and deleted, with its `Account` set to the requesting account and its
`TargetAccount` set to the fetched target account, and names the requesting
account as origin and the fetched target account as target. -/
theorem BlockRemove_event_contents (p : Processor W R) (req : Account)
    (tid : String) (s : PState W) (evs : List FromClientAPI) (ev : FromClientAPI)
    (hevs : (BlockRemove p req tid s).2.fromClientAPI = s.fromClientAPI ++ evs)
    (hev : ev ∈ evs) :
    ∃ tgt found, p.GetAccountByID s.world tid = .ok tgt ∧
      p.GetWhere s.world (blockWhere req tid) = .ok found ∧
      ev = { APObjectType := ActivityStreamsBlock,
             APActivityType := ActivityStreamsUndo,
             GTSModel := { found with Account := some req, TargetAccount := some tgt },
             OriginAccount := req,
             TargetAccount := tgt } := by
  rcases BlockRemove_channel p req tid s with h | ⟨tgt, found, hacct, hblock, _, h⟩
  · rw [h] at hevs
    have hnil : evs = [] := by
      have := congrArg List.length hevs
      simp at this
      exact this
    subst hnil
    cases hev
  · rw [h] at hevs
    have heq := List.append_cancel_left hevs
    subst heq
    rw [List.mem_singleton] at hev
    exact ⟨tgt, found, hacct, hblock, hev⟩

theorem BlockRemove_event_contents_witness :
    ∃ tgt found,
      (tableProcessor none).GetAccountByID [aliceBlocksBob] "01BOB" = .ok tgt ∧
      (tableProcessor none).GetWhere [aliceBlocksBob] (blockWhere federatingdb.alice "01BOB")
        = .ok found ∧
      undoBlockMessage
          { aliceBlocksBob with
            Account := some federatingdb.alice, TargetAccount := some federatingdb.bob }
          federatingdb.alice federatingdb.bob =
        { APObjectType := ActivityStreamsBlock,
          APActivityType := ActivityStreamsUndo,
          GTSModel := { found with Account := some federatingdb.alice, TargetAccount := some tgt },
          OriginAccount := federatingdb.alice,
          TargetAccount := tgt } :=
  BlockRemove_event_contents (tableProcessor none) federatingdb.alice "01BOB"
    (freshState [aliceBlocksBob])
    [undoBlockMessage
      { aliceBlocksBob with
        Account := some federatingdb.alice, TargetAccount := some federatingdb.bob }
      federatingdb.alice federatingdb.bob]
    _ (by decide) (List.mem_singleton.mpr rfl)

/-- C17: when the target account exists and the lookup of the block fails with
any error, `BlockRemove` issues no `DeleteByID`, sends nothing, leaves the store
as it was and returns exactly what `RelationshipGet` returns on that store; and
when the target account cannot be fetched it returns a NotFound error after the
one account lookup, with no block lookup, no deletion and nothing sent. -/
theorem BlockRemove_noop_without_block (p : Processor W R) (req : Account)
    (tid : String) (s : PState W) :
    (∀ tgt e, p.GetAccountByID s.world tid = .ok tgt →
        p.GetWhere s.world (blockWhere req tid) = .error e →
        BlockRemove p req tid s =
          (p.RelationshipGet s.world req tid,
            { world := s.world,
              calls := s.calls ++ [.GetAccountByID tid, .GetWhere (blockWhere req tid)],
              fromClientAPI := s.fromClientAPI })) ∧
      (∀ e, p.GetAccountByID s.world tid = .error e →
        BlockRemove p req tid s =
          ((none, some { kind := .NotFound,
                         err := "BlockCreate: error getting account " ++ tid ++
                           " from the db: " ++ e }),
            { world := s.world, calls := s.calls ++ [.GetAccountByID tid],
              fromClientAPI := s.fromClientAPI })) :=
  ⟨fun tgt e hacct hblock => BlockRemove_block_missing p req tid s tgt e hacct hblock,
    fun e hacct => BlockRemove_target_missing p req tid s e hacct⟩

theorem BlockRemove_noop_without_block_witness :
    (BlockRemove (tableProcessor none) federatingdb.alice "01BOB" (freshState [])).2.calls =
        [.GetAccountByID "01BOB", .GetWhere (blockWhere federatingdb.alice "01BOB")] ∧
      (BlockRemove (tableProcessor none) federatingdb.alice "01CAROL"
        (freshState [aliceBlocksBob])).2.calls = [.GetAccountByID "01CAROL"] :=
  have h := BlockRemove_noop_without_block (tableProcessor none) federatingdb.alice
  ⟨by rw [(h "01BOB" (freshState [])).1 federatingdb.bob "no entries" rfl rfl]; rfl,
    by rw [(h "01CAROL" (freshState [aliceBlocksBob])).2 "no entries" rfl]; rfl⟩

end account

namespace storage

/-! ## Presigned URLs -/

/-- C13: for every key, if the underlying storage is not S3 storage or `Proxy`
is set, `Driver.URL` returns nil and leaves cache and trace exactly as they
were: no cache read, no cache write, no presign request.  Conversely, whenever
`Driver.URL` returns a URL, the storage is S3 storage and `Proxy` is unset. -/
theorem URL_nil_unless_S3_without_proxy (env : Env) (d : Driver) (key : String)
    (s : State) :
    ((d.Storage.isS3 = false ∨ d.Proxy = true) →
        d.URL env key s = (.returned none, s)) ∧
      (∀ psu, (d.URL env key s).1 = .returned (some psu) →
        d.Storage.isS3 = true ∧ d.Proxy = false) := by
  constructor
  · intro h
    unfold Driver.URL
    rcases h with h | h <;> simp [h]
  · intro psu hret
    cases hs3 : d.Storage.isS3 with
    | false =>
      unfold Driver.URL at hret
      simp [hs3] at hret
    | true =>
      cases hp : d.Proxy with
      | true =>
        unfold Driver.URL at hret
        simp [hp] at hret
      | false => exact ⟨rfl, rfl⟩

theorem URL_nil_unless_S3_without_proxy_witness :
    Driver.URL sampleEnv
        { Storage := .S3Storage "s3.example" "media", Proxy := true, Bucket := "media",
          PresignedCache := some { TTL := urlCacheTTL - urlCacheExpiryFrequency,
                                   Sweep := urlCacheExpiryFrequency } }
        "avatar.png" warmState = (.returned none, warmState) ∧
      Driver.URL sampleEnv
        { Storage := .DiskStorage "/gotosocial/storage", Proxy := false, Bucket := "",
          PresignedCache := none }
        "avatar.png" warmState = (.returned none, warmState) :=
  ⟨(URL_nil_unless_S3_without_proxy sampleEnv
      { Storage := .S3Storage "s3.example" "media", Proxy := true, Bucket := "media",
        PresignedCache := some { TTL := urlCacheTTL - urlCacheExpiryFrequency,
                                 Sweep := urlCacheExpiryFrequency } }
      "avatar.png" warmState).1 (Or.inr rfl),
    (URL_nil_unless_S3_without_proxy sampleEnv
      { Storage := .DiskStorage "/gotosocial/storage", Proxy := false, Bucket := "",
        PresignedCache := none }
      "avatar.png" warmState).1 (Or.inl rfl)⟩

/-- The two constants in nanoseconds: 24 hours and 5 minutes. -/
theorem urlCache_constants :
    urlCacheTTL = 86400000000000 ∧ urlCacheExpiryFrequency = 300000000000 := by
  decide

/-- C15: the driver built by `NewS3Storage` has a cache whose entry lifetime is
`urlCacheTTL - urlCacheExpiryFrequency`, that is 23h55m, swept every
`urlCacheExpiryFrequency`, that is 5m.  On a cache miss with proxying disabled,
`Driver.URL` requests a URL that expires after `urlCacheTTL`, that is 24h, and
records `now + urlCacheTTL` as its `Expiry`.  The entry lifetime is strictly
less than that expiry, lifetime plus one sweep period does not exceed it, and
the cache entry written expires strictly before the URL does. -/
theorem presigned_cache_ttl_below_url_expiry (env : Env) (cfg : Config) (key : String)
    (s : State) (u : URL)
    (hproxy : cfg.StorageS3Proxy = false)
    (hmiss : s.cache.find? (fun e => decide (e.Key = key)) = none)
    (hsign : env.PresignedGetObject cfg.StorageS3BucketName key urlCacheTTL
      (env.TypeByExtension (env.Ext key)) = .ok u) :
    ∃ d c, NewS3Storage cfg none = (some d, none) ∧ d.PresignedCache = some c ∧
      c.TTL = 23 * Hour + 55 * Minute ∧ c.Sweep = 5 * Minute ∧
      urlCacheTTL = 24 * Hour ∧
      d.URL env key s =
        (.returned (some { URL := u, Expiry := env.Now + urlCacheTTL }),
          { cache := { Key := key, Value := { URL := u, Expiry := env.Now + urlCacheTTL },
                       Expiry := env.Now + c.TTL } ::
              s.cache.filter (fun e => decide (e.Key ≠ key)),
            trace := s.trace ++
              [.cacheLock, .cacheGet key, .cacheUnlock,
               .presign cfg.StorageS3BucketName key urlCacheTTL
                 (env.TypeByExtension (env.Ext key)),
               .cacheSet { Key := key,
                           Value := { URL := u, Expiry := env.Now + urlCacheTTL },
                           Expiry := env.Now + c.TTL }] }) ∧
      c.TTL < urlCacheTTL ∧
      c.TTL + c.Sweep ≤ urlCacheTTL ∧
      env.Now + c.TTL < env.Now + urlCacheTTL := by
  refine ⟨_, _, rfl, rfl, by decide, by decide, by decide, ?_, by decide, by decide, ?_⟩
  · unfold Driver.URL
    simp [Storage.isS3, hproxy, State.log, hmiss, hsign, cacheSet]
  · have h : urlCacheTTL - urlCacheExpiryFrequency < urlCacheTTL := by decide
    exact Int.add_lt_add_left h env.Now

theorem presigned_cache_ttl_below_url_expiry_witness :
    ∃ d c, NewS3Storage sampleConfig none = (some d, none) ∧ d.PresignedCache = some c ∧
      c.TTL = 86100000000000 ∧
      (d.URL sampleEnv "avatar.png" coldState).1 =
        .returned (some { URL := { Hostname := "media.s3.example",
                                   String := "https://media.s3.example/avatar.png" },
                          Expiry := 1000 + 86400000000000 }) := by
  obtain ⟨d, c, hd, hc, httl, _, _, hurl, _, _, _⟩ :=
    presigned_cache_ttl_below_url_expiry sampleEnv sampleConfig "avatar.png" coldState
      { Hostname := "media.s3.example", String := "https://media.s3.example/avatar.png" }
      rfl rfl rfl
  refine ⟨d, c, hd, hc, ?_, ?_⟩
  · rw [httl]; decide
  · rw [hurl]
    have h := urlCache_constants.1
    simp [sampleEnv, h]

end storage

namespace bundb

variable {F : Type}

/-! ## The deciding entry of a list lookup -/

/-- Running the loop over a prefix whose lookups all answer `(false, nil)`:
the loop continues with the rest from the state the prefix leaves, the prefix
itself answers `(false, nil)`, and no later answer is changed. -/
theorem AreDomainsBlocked_skip_unblocked (d : Deps) (fault : Option Error)
    (rest : List String) :
    ∀ (pre : List String) (s : State F),
      (∀ y ∈ pre, (IsDomainBlocked d fault y s).1 = (false, none)) →
      AreDomainsBlocked d fault (pre ++ rest) s =
          AreDomainsBlocked d fault rest (AreDomainsBlocked d fault pre s).2 ∧
        ∀ y, (IsDomainBlocked d fault y (AreDomainsBlocked d fault pre s).2).1 =
          (IsDomainBlocked d fault y s).1
  | [], s, _ => ⟨rfl, fun _ => rfl⟩
  | x :: pre, s, hpre => by
    have hx := hpre x (List.mem_cons_self x pre)
    rcases h : IsDomainBlocked d fault x s with ⟨⟨b, err⟩, s1⟩
    rw [h] at hx
    have hb : b = false := congrArg Prod.fst hx
    have he : err = none := congrArg Prod.snd hx
    subst hb he
    have hstable := IsDomainBlocked_answers_stable d fault x s s1 false h
    have hrest : ∀ y ∈ pre, (IsDomainBlocked d fault y s1).1 = (false, none) := by
      intro y hy
      rw [hstable y]
      exact hpre y (List.mem_cons_of_mem x hy)
    have ih := AreDomainsBlocked_skip_unblocked d fault rest pre s1 hrest
    have hcons : ∀ l, AreDomainsBlocked d fault (x :: l) s = AreDomainsBlocked d fault l s1 := by
      intro l
      conv_lhs => unfold AreDomainsBlocked
      rw [h]
      simp
    rw [List.cons_append, hcons, hcons]
    exact ⟨ih.1, fun y => (ih.2 y).trans (hstable y)⟩

/-- The loop over `x :: post`, when the lookup of `x` is blocked or fails, is
the loop over `[x]`. -/
theorem AreDomainsBlocked_stops_at_deciding (d : Deps) (fault : Option Error)
    (x : String) (post : List String) (s : State F)
    (h : (IsDomainBlocked d fault x s).1.1 = true ∨ (IsDomainBlocked d fault x s).1.2 ≠ none) :
    AreDomainsBlocked d fault (x :: post) s =
        ((if (IsDomainBlocked d fault x s).1.2 = none then true else false,
          (IsDomainBlocked d fault x s).1.2), (IsDomainBlocked d fault x s).2) := by
  unfold AreDomainsBlocked
  rcases hx : IsDomainBlocked d fault x s with ⟨⟨b, _ | err⟩, s1⟩
  · rw [hx] at h
    have hb : b = true := by simpa using h
    subst hb
    simp
  · simp

/-- C16: let `x` be an entry preceded only by entries whose lookup answers
`(false, nil)`.  If the lookup of `x` answers blocked, `AreDomainsBlocked`
returns `(true, nil)`; if it fails with `err`, `AreDomainsBlocked` returns
`(false, err)`.  In both cases the entries after `x` play no part: the result,
the cache and the trace are those of the run over the list cut off after `x`,
and the run ends in the state the lookup of `x` leaves. -/
theorem AreDomainsBlocked_decided_by_first_blocked_or_failing (d : Deps)
    (fault : Option Error) (pre : List String) (x : String) (post : List String)
    (s : State F)
    (hpre : ∀ y ∈ pre, (IsDomainBlocked d fault y s).1 = (false, none)) :
    ((IsDomainBlocked d fault x s).1 = (true, none) →
        (AreDomainsBlocked d fault (pre ++ x :: post) s).1 = (true, none)) ∧
      (∀ err, (IsDomainBlocked d fault x s).1.2 = some err →
        (AreDomainsBlocked d fault (pre ++ x :: post) s).1 = (false, some err)) ∧
      (((IsDomainBlocked d fault x s).1.1 = true ∨ (IsDomainBlocked d fault x s).1.2 ≠ none) →
        AreDomainsBlocked d fault (pre ++ x :: post) s =
            AreDomainsBlocked d fault (pre ++ [x]) s ∧
          (AreDomainsBlocked d fault (pre ++ x :: post) s).2 =
            (IsDomainBlocked d fault x (AreDomainsBlocked d fault pre s).2).2) := by
  have hsplit := fun rest => (AreDomainsBlocked_skip_unblocked d fault rest pre s hpre).1
  have hsame := (AreDomainsBlocked_skip_unblocked d fault [] pre s hpre).2 x
  have hrun : ∀ rest,
      ((IsDomainBlocked d fault x s).1.1 = true ∨ (IsDomainBlocked d fault x s).1.2 ≠ none) →
      AreDomainsBlocked d fault (pre ++ x :: rest) s =
        ((if (IsDomainBlocked d fault x s).1.2 = none then true else false,
          (IsDomainBlocked d fault x s).1.2),
          (IsDomainBlocked d fault x (AreDomainsBlocked d fault pre s).2).2) := by
    intro rest hdec
    rw [hsplit, AreDomainsBlocked_stops_at_deciding d fault x rest _ (by rw [hsame]; exact hdec),
      hsame]
  refine ⟨?_, ?_, ?_⟩
  · intro hx
    rw [hrun post (Or.inl (by rw [hx])), hx]
    simp
  · intro err hx
    rw [hrun post (Or.inr (by rw [hx]; simp)), hx]
    simp
  · intro hdec
    rw [hrun post hdec, hrun [] hdec]
    exact ⟨rfl, rfl⟩

theorem AreDomainsBlocked_decided_by_first_blocked_or_failing_witness :
    (AreDomainsBlocked sampleDeps none ["ok.example", "spam.example", "bad domain"]
        ({ store := [{ Domain := "spam.example", rest := 0 }], cache := none, trace := [] }
          : State Nat)).1 = (true, none) ∧
      (AreDomainsBlocked sampleDeps none ["ok.example", "bad domain", "spam.example"]
        ({ store := [{ Domain := "spam.example", rest := 0 }], cache := none, trace := [] }
          : State Nat)).1 = (false, some "idna: disallowed rune") :=
  ⟨(AreDomainsBlocked_decided_by_first_blocked_or_failing sampleDeps none
      ["ok.example"] "spam.example" ["bad domain"]
      ({ store := [{ Domain := "spam.example", rest := 0 }], cache := none, trace := [] }
        : State Nat) (by decide)).1 (by decide),
    (AreDomainsBlocked_decided_by_first_blocked_or_failing sampleDeps none
      ["ok.example"] "bad domain" ["spam.example"]
      ({ store := [{ Domain := "spam.example", rest := 0 }], cache := none, trace := [] }
        : State Nat) (by decide)).2.1 "idna: disallowed rune" (by decide)⟩

end bundb
